import Mathlib

/-!
Verification development for the Evently auth/session core.

The repository ships two textual variants of `src/contexts/AuthContext.tsx`
(an earlier and a revised version of the same component, separated by a
document marker in the source file).  Where the two variants differ in
behaviour, both are embedded, suffixed `V1` (the first variant, file lines
1-237) and `V2` (the second variant, file lines 240-517).  Functions whose
state-relevant logic is character-identical in both variants are embedded
once.

The remote account/row store is external: its responses (auth results,
profile-row query outcomes, insert/update outcomes) enter the embedded
functions as explicit outcome parameters, and every call the code issues
against the store or the router is recorded in an explicit effect list.
-/

/-- `UserRole` from `src/lib/types.ts`: `'attendee' | 'organizer' | 'admin'`. -/
inductive Role
  | attendee
  | organizer
  | admin
deriving DecidableEq, Repr

/-- The application-side `User` shape assembled by `AuthContext`
(`id`, `email`, `name` always present; the rest optional). -/
structure User where
  id : String
  email : String
  name : String
  role : Option Role
  organizationName : Option String
  bio : Option String
  profilePictureUrl : Option String
deriving DecidableEq, Repr

/-- The controller state `{user, role, isLoading}` owned by `AuthProvider`. -/
structure AuthState where
  user : Option User
  role : Option Role
  isLoading : Bool
deriving DecidableEq, Repr

/-- Initial controller state: `useState(null)`, `useState(null)`, `useState(true)`. -/
def initialAuthState : AuthState :=
  { user := none, role := none, isLoading := true }

/-- The account issued by the auth store (`SupabaseUser`): an id and an
optional email (`session.user.email` may be undefined). -/
structure SupabaseUser where
  id : String
  email : Option String
deriving DecidableEq, Repr

/-- The columns selected from the `users` profile row:
`name, role, organization_name, bio, profile_picture_url`. -/
structure ProfileRow where
  name : String
  role : Option Role
  organization_name : Option String
  bio : Option String
  profile_picture_url : Option String
deriving DecidableEq, Repr

/-- Outcome of the awaited profile-row select issued by `fetchUserProfile`:
either a row, a structured store error `{code, message}` (code `PGRST116`
is the no-rows case), or the awaited call rejecting (throwing). -/
inductive FetchOutcome
  | rows (p : ProfileRow)
  | err (code : String) (msg : String)
  | raised (msg : String)
deriving DecidableEq, Repr

/-- `fetchUserProfile` (both variants have the same data flow; the second
only adds extra logging): a store error with code other than `PGRST116` is
logged and reported and `null` is returned; a `PGRST116` error falls through
with no profile and also yields `null`; a row is mapped (snake_case to
camelCase) into a `User` built on the account id/email.  A rejection of the
awaited call propagates as an exception (`Except.error`). -/
def fetchUserProfile (su : SupabaseUser) : FetchOutcome → Except String (Option User)
  | FetchOutcome.raised m => Except.error m
  | FetchOutcome.err code _msg =>
      if code ≠ "PGRST116" then
        Except.ok none
      else
        Except.ok none
  | FetchOutcome.rows p =>
      Except.ok (some
        { id := su.id
          email := su.email.getD ""
          name := p.name
          role := p.role
          organizationName := p.organization_name
          bio := p.bio
          profilePictureUrl := p.profile_picture_url })

/-- JavaScript `email.split('@')[0]`: the segment before the first `@`
(the whole string when no `@` occurs), computed on the character list. -/
def localPart (e : String) : String :=
  String.mk (e.data.takeWhile (fun c => c != '@'))

/-- `session.user.email?.split('@')[0] || 'User'`. -/
def minimalName (email : Option String) : String :=
  match email with
  | none => "User"
  | some e => if localPart e = "" then "User" else localPart e

/-- The minimal user record the handler builds when no profile row is
found: `{id, email: email || '', name: email?.split('@')[0] || 'User'}`
(no role/organization/bio/picture fields on the object). -/
def minimalUser (su : SupabaseUser) : User :=
  { id := su.id
    email := su.email.getD ""
    name := minimalName su.email
    role := none
    organizationName := none
    bio := none
    profilePictureUrl := none }

/-- Result of one run of the session-change handler: the controller state
after the callback returns, plus the message of an exception that escaped
the callback, if any. -/
structure HandlerOutcome where
  state : AuthState
  escaped : Option String
deriving DecidableEq, Repr

/-- Variant-1 `onAuthStateChange` handler (no try/catch/finally).
With a session: fetch the profile; a found profile sets
`user`/`role := userProfile.role || null`; a missing profile sets the
minimal user record and `role := null`; then `setIsLoading(false)`.
Without a session: clear `user`/`role`, then `setIsLoading(false)`.
If the awaited fetch throws, the exception escapes the callback before any
state write, so the state (including `isLoading`) is left as it was. -/
def onSessionChangeV1 (s : AuthState) (session : Option SupabaseUser)
    (fetch : FetchOutcome) : HandlerOutcome :=
  match session with
  | some su =>
      match fetchUserProfile su fetch with
      | Except.error m => { state := s, escaped := some m }
      | Except.ok (some up) =>
          { state := { user := some up, role := up.role, isLoading := false }
            escaped := none }
      | Except.ok none =>
          { state := { user := some (minimalUser su), role := none, isLoading := false }
            escaped := none }
  | none =>
      { state := { user := none, role := none, isLoading := false }
        escaped := none }

/-- Variant-2 `onAuthStateChange` handler (try/catch/finally): same branch
logic as variant 1, but an exception from the fetch is caught (setting
`user = null`, `role = null`) and `setIsLoading(false)` runs in `finally`,
so nothing escapes and `isLoading` is always released. -/
def onSessionChangeV2 (_s : AuthState) (session : Option SupabaseUser)
    (fetch : FetchOutcome) : HandlerOutcome :=
  match session with
  | some su =>
      match fetchUserProfile su fetch with
      | Except.error _m =>
          { state := { user := none, role := none, isLoading := false }
            escaped := none }
      | Except.ok (some up) =>
          { state := { user := some up, role := up.role, isLoading := false }
            escaped := none }
      | Except.ok none =>
          { state := { user := some (minimalUser su), role := none, isLoading := false }
            escaped := none }
  | none =>
      { state := { user := none, role := none, isLoading := false }
        escaped := none }

/-- A typed auth error `{name, message}` as returned across the controller
boundary. -/
structure AuthErr where
  name : String
  message : String
deriving DecidableEq, Repr

/-- Variant-1 `signIn`: `setIsLoading(true)`, await the credential check,
then `setIsLoading(false)` unconditionally, toast, and return `{error}`.
The outcome of `auth.signInWithPassword` is passed in as `res`
(`some e` = rejection). -/
def signInV1 (s : AuthState) (res : Option AuthErr) : AuthState × Option AuthErr :=
  ({ s with isLoading := false }, res)

/-- Variant-2 `signIn`: `setIsLoading(true)`, await the credential check;
on rejection `setIsLoading(false)` and return the error; on success leave
`isLoading` true (the pending session-change event will release it) and
return `{error: null}`. -/
def signInV2 (s : AuthState) (res : Option AuthErr) : AuthState × Option AuthErr :=
  match res with
  | some e => ({ s with isLoading := false }, some e)
  | none => ({ s with isLoading := true }, none)

/-- The sign-up form data `userData : Partial<User>` as consumed by
`signUp` (the fields it reads). -/
structure UserDraft where
  email : Option String
  name : Option String
  organizationName : Option String
  bio : Option String
  profilePictureUrl : Option String
deriving DecidableEq, Repr

/-- JavaScript `v || d` for an optional string (empty string is falsy). -/
def jsOr (v : Option String) (d : String) : String :=
  match v with
  | none => d
  | some s => if s = "" then d else s

/-- JavaScript `v || null` for an optional string (empty string is falsy). -/
def jsOrNull (v : Option String) : Option String :=
  match v with
  | none => none
  | some s => if s = "" then none else some s

/-- The record inserted into the `users` table by `signUp` (snake_case
payload built from the draft and the created account). -/
structure InsertPayload where
  auth_user_id : String
  email : Option String
  name : String
  role : Role
  organization_name : Option String
  bio : Option String
  profile_picture_url : Option String
deriving DecidableEq, Repr

/-- The profile-row insert payload built by both `signUp` variants:
organization fields are nulled for non-organizers even if supplied. -/
def signUpInsertPayload (userData : UserDraft) (selectedRole : Role)
    (su : SupabaseUser) : InsertPayload :=
  { auth_user_id := su.id
    email := su.email
    name := jsOr userData.name "New User"
    role := selectedRole
    organization_name :=
      if selectedRole = Role.organizer then userData.organizationName else none
    bio := if selectedRole = Role.organizer then userData.bio else none
    profile_picture_url := jsOrNull userData.profilePictureUrl }

/-- An error reported by the row store on insert/update: `{code, message}`. -/
structure StoreErr where
  code : String
  message : String
deriving DecidableEq, Repr

/-- Calls issued against the row store, the auth store, or the router. -/
inductive Effect
  | insertProfile (payload : InsertPayload)
  | storeSignOut
  | updateRole (authUserId : String) (r : Role)
  | push (route : String)
deriving DecidableEq, Repr

/-- Result of a controller operation run: final state, the external calls
it issued in order, the typed result returned to the caller (`some` =
error), and the message of an escaped exception, if any. -/
structure OpOutcome where
  state : AuthState
  effects : List Effect
  result : Option AuthErr
  escaped : Option String
deriving DecidableEq, Repr

/-- The variant-1 fallback message when sign-up lacks an email. -/
def emailRequiredErr : AuthErr :=
  { name := "AuthError", message := "Email is required for sign up." }

/-- Variant-1 `signUp`.  Parameters carry the store responses:
`signUpRes` is the `auth.signUp` outcome (`Except.error` = rejection,
`Except.ok none` = success with no user object), `insertRes` the profile
insert outcome (`some` = error), and `fetch` the outcome of the post-insert
profile refetch that this variant performs.  On insert failure it releases
`isLoading`, signs the half-created account back out, and returns a
`ProfileCreationError` carrying the insert error message.  On full success
it hand-populates `user`/`role` from the refetched profile (falling back to
a draft-based record and the selected role if the refetch finds nothing). -/
def signUpV1 (s : AuthState) (userData : UserDraft) (selectedRole : Role)
    (signUpRes : Except AuthErr (Option SupabaseUser))
    (insertRes : Option StoreErr) (fetch : FetchOutcome) : OpOutcome :=
  if userData.email.getD "" = "" then
    { state := { s with isLoading := false }, effects := []
      result := some emailRequiredErr, escaped := none }
  else
    match signUpRes with
    | Except.error e =>
        { state := { s with isLoading := false }, effects := []
          result := some e, escaped := none }
    | Except.ok none =>
        { state := { s with isLoading := false }, effects := []
          result := none, escaped := none }
    | Except.ok (some su) =>
        let payload := signUpInsertPayload userData selectedRole su
        match insertRes with
        | some ie =>
            { state := { s with isLoading := false }
              effects := [Effect.insertProfile payload, Effect.storeSignOut]
              result := some { name := "ProfileCreationError", message := ie.message }
              escaped := none }
        | none =>
            match fetchUserProfile su fetch with
            | Except.error m =>
                { state := { s with isLoading := true }
                  effects := [Effect.insertProfile payload]
                  result := none, escaped := some m }
            | Except.ok (some up) =>
                { state := { user := some up, role := up.role, isLoading := false }
                  effects := [Effect.insertProfile payload]
                  result := none, escaped := none }
            | Except.ok none =>
                { state :=
                    { user := some
                        { id := su.id
                          email := su.email.getD ""
                          name := jsOr userData.name "User"
                          role := none
                          organizationName := none
                          bio := none
                          profilePictureUrl := none }
                      role := some selectedRole
                      isLoading := false }
                  effects := [Effect.insertProfile payload]
                  result := none, escaped := none }

/-- The variant-2 recursion-specific profile-insert message (the source
string quotes the table name; the quotes are elided here). -/
def rlsRecursionInsertMessage : String :=
  "Database RLS Error: Infinite recursion detected. User account created in auth, but profile creation failed due to RLS policy issues on the users table. Please fix RLS policies in Supabase SQL Editor."

/-- Variant-2 `signUp`.  Same entry checks as variant 1; on
`auth.signUp` success with no user object it returns a
`NoUserObjectAfterSignUp` error; on insert failure it releases `isLoading`
and returns a `ProfileCreationError` (recursion-specific message for the
`42P17` code, else the insert message or an unknown-error fallback) but
issues no sign-out; on full success it only toasts, leaving `user`/`role`
untouched and `isLoading` true for the pending session-change event. -/
def signUpV2 (s : AuthState) (userData : UserDraft) (selectedRole : Role)
    (signUpRes : Except AuthErr (Option SupabaseUser))
    (insertRes : Option StoreErr) : OpOutcome :=
  if userData.email.getD "" = "" then
    { state := { s with isLoading := false }, effects := []
      result := some emailRequiredErr, escaped := none }
  else
    match signUpRes with
    | Except.error e =>
        { state := { s with isLoading := false }, effects := []
          result := some e, escaped := none }
    | Except.ok none =>
        { state := { s with isLoading := false }, effects := []
          result := some
            { name := "NoUserObjectAfterSignUp"
              message := "Sign up process anomaly: no user object returned from auth system to link profile." }
          escaped := none }
    | Except.ok (some su) =>
        let payload := signUpInsertPayload userData selectedRole su
        match insertRes with
        | some ie =>
            { state := { s with isLoading := false }
              effects := [Effect.insertProfile payload]
              result := some
                { name := "ProfileCreationError"
                  message :=
                    if ie.code = "42P17" then rlsRecursionInsertMessage
                    else jsOr (some ie.message) "Unknown profile creation error." }
              escaped := none }
        | none =>
            { state := { s with isLoading := true }
              effects := [Effect.insertProfile payload]
              result := none, escaped := none }

/-- The landing route pushed per selected role (the switch shared by
`selectRole` in both variants and by `DashboardPage`). -/
def roleRoute (r : Role) (userId : String) : String :=
  match r with
  | Role.attendee => "/attendee"
  | Role.organizer => "/organizer/" ++ userId
  | Role.admin => "/admin"

/-- `selectRole` (state logic identical in both variants; the second only
adds logging).  With no user: nothing happens, no store call.  With a user:
issue the role update by `auth_user_id`; on failure release `isLoading` and
leave `role`/`user` untouched; on success optimistically set `role` and
`user.role`, release `isLoading`, and push the role landing route.
The update outcome is passed in as `updRes` (`some` = error). -/
def selectRole (s : AuthState) (selectedRole : Role) (updRes : Option StoreErr) :
    AuthState × List Effect :=
  match s.user with
  | none => (s, [])
  | some u =>
      match updRes with
      | some _e =>
          ({ s with isLoading := false }, [Effect.updateRole u.id selectedRole])
      | none =>
          ({ user := some { u with role := some selectedRole }
             role := some selectedRole
             isLoading := false },
           [Effect.updateRole u.id selectedRole,
            Effect.push (roleRoute selectedRole u.id)])

/-- The `AdminPage` guard effect (`src/app/admin/page.tsx`):
`if (!authLoading && (!user || role !== 'admin')) router.push('/login')`.
Returns the route pushed, if any. -/
def adminGuardRedirect (s : AuthState) : Option String :=
  if !s.isLoading && (s.user.isNone || s.role ≠ some Role.admin) then
    some "/login"
  else
    none

/-- The `DashboardPage` guard effect (the second unnamed source file):
`if (!isLoading && !user) push('/login')`, then
`if (!isLoading && user && role) push(<role landing route>)`.
Returns the list of routes pushed, in order. -/
def dashboardGuardRedirects (s : AuthState) : List String :=
  (if !s.isLoading && s.user.isNone then ["/login"] else []) ++
  (match s.user, s.role with
   | some u, some r => if !s.isLoading then [roleRoute r u.id] else []
   | _, _ => [])

/-- `Event.venue_booking_status` values
(`pending | approved | rejected | not_requested`); `Option` covers the
null/undefined case. -/
inductive VenueBookingStatus
  | pending
  | approved
  | rejected
  | not_requested
deriving DecidableEq, Repr

/-- `canPurchaseTickets` from the event page:
`status === 'approved' || status === 'not_requested' || !status`. -/
def canPurchaseTickets (st : Option VenueBookingStatus) : Bool :=
  st = some VenueBookingStatus.approved ||
  st = some VenueBookingStatus.not_requested ||
  st.isNone

/-- The Purchase Tickets button is rendered with
`disabled={!canPurchaseTickets || status === 'pending' || status === 'rejected'}`;
the action is enabled exactly when that attribute is false.  The page reads
no viewer identity or role anywhere in this condition. -/
def purchaseEnabled (st : Option VenueBookingStatus) : Bool :=
  !(!canPurchaseTickets st ||
    st = some VenueBookingStatus.pending ||
    st = some VenueBookingStatus.rejected)

/-- The fields of the event row that `TicketPurchaseDialog.onSubmit` and
the purchase button read. -/
structure EventRow where
  event_id : String
  organizer_id : String
  title : String
  venue_booking_status : Option VenueBookingStatus
deriving DecidableEq, Repr

/-- A `TicketPurchase` record as built by the dialog. -/
structure TicketPurchase where
  purchase_id : String
  event_id : String
  attendee_user_id : String
  organizer_user_id : String
  quantity : Nat
  purchase_date : String
  payment_method_id : String
  status : String
deriving DecidableEq, Repr

/-- The validated form data `TicketPurchaseFormData` handed to `onSubmit`. -/
structure TicketFormData where
  name : String
  email : String
  ticketQuantity : Nat
  paymentMethodId : String
deriving DecidableEq, Repr

/-- Actions `TicketPurchaseDialog.onSubmit` can take: a row-store insert
(never issued: the insert is only a comment in the source), the
`onPurchaseSuccess` callback invocation, and closing the dialog. -/
inductive DialogEffect
  | insertRow (table : String) (record : TicketPurchase)
  | purchaseSuccess (eventTitle : String) (ticketQuantity : Nat)
      (purchaseRecord : TicketPurchase)
  | closeDialog
deriving DecidableEq, Repr

/-- The purchase record `onSubmit` constructs locally: fresh id and
timestamp from the environment, ids from the event and the logged-in user,
quantity and payment method from the form, `status: 'confirmed'`. -/
def mkPurchaseRecord (u : User) (event : EventRow) (data : TicketFormData)
    (freshId now : String) : TicketPurchase :=
  { purchase_id := freshId
    event_id := event.event_id
    attendee_user_id := u.id
    organizer_user_id := event.organizer_id
    quantity := data.ticketQuantity
    purchase_date := now
    payment_method_id := data.paymentMethodId
    status := "confirmed" }

/-- `TicketPurchaseDialog.onSubmit` after the simulated payment delay: with
no logged-in user it logs and returns; otherwise it builds the purchase
record locally, passes it to `onPurchaseSuccess`, and closes the dialog.
No store call of any kind is issued. -/
def dialogOnSubmit (user : Option User) (event : EventRow)
    (data : TicketFormData) (freshId now : String) : List DialogEffect :=
  match user with
  | none => []
  | some u =>
      [DialogEffect.purchaseSuccess event.title data.ticketQuantity
        (mkPurchaseRecord u event data freshId now),
       DialogEffect.closeDialog]

/-- Sample account used to instantiate hypotheses at concrete inputs. -/
def sampleAccount : SupabaseUser :=
  { id := "acct-1", email := some "a@x.com" }

/-- Sample sign-up form draft. -/
def sampleDraft : UserDraft :=
  { email := some "a@x.com", name := some "A", organizationName := none
    bio := none, profilePictureUrl := none }

/-- Sample profile row. -/
def sampleProfile : ProfileRow :=
  { name := "A", role := some Role.attendee, organization_name := none
    bio := none, profile_picture_url := none }

/-- Sample insert error from the row store. -/
def sampleInsertErr : StoreErr :=
  { code := "23505", message := "duplicate key value violates unique constraint" }

/-- Sample application-side user. -/
def sampleUser : User :=
  { id := "acct-1", email := "a@x.com", name := "A", role := none
    organizationName := none, bio := none, profilePictureUrl := none }

/-- A store error reaching `fetchUserProfile` yields `null` on both the
no-rows branch and the hard-error branch. -/
theorem fetchUserProfile_err_eq (su : SupabaseUser) (c m : String) :
    fetchUserProfile su (FetchOutcome.err c m) = Except.ok none := by
  unfold fetchUserProfile
  exact ite_self _

/-- C1: for every controller state with `isLoading = true` — hence at every
point of every sequence of session-change events at which the controller is
still loading — the `AdminPage` guard pushes no route and the
`DashboardPage` guard pushes no route: both cited guards test
`!isLoading` before any `router.push`. -/
theorem guards_no_redirect_while_loading (s : AuthState)
    (h : s.isLoading = true) :
    adminGuardRedirect s = none ∧ dashboardGuardRedirects s = [] := by
  constructor
  · unfold adminGuardRedirect
    rw [h]
    simp
  · unfold dashboardGuardRedirects
    rw [h]
    rcases s.user with _ | u <;> rcases s.role with _ | r <;> simp

theorem guards_no_redirect_while_loading_witness :
    adminGuardRedirect initialAuthState = none ∧
    dashboardGuardRedirects initialAuthState = [] :=
  guards_no_redirect_while_loading initialAuthState rfl

/-- C2: the Purchase Tickets action is enabled exactly when
`venue_booking_status` is `approved`, `not_requested`, or null; in
particular it is disabled for `pending` and `rejected`.  The disabled
condition on the event page reads no viewer identity or role, so this holds
regardless of who is viewing. -/
theorem purchase_enabled_iff_status_allows :
    (∀ st : Option VenueBookingStatus,
      purchaseEnabled st = true ↔
        (st = some VenueBookingStatus.approved ∨
         st = some VenueBookingStatus.not_requested ∨
         st = none)) ∧
    purchaseEnabled (some VenueBookingStatus.pending) = false ∧
    purchaseEnabled (some VenueBookingStatus.rejected) = false := by
  refine ⟨?_, rfl, rfl⟩
  intro st
  rcases st with _ | v
  · decide
  · cases v <;> decide

/-- C7: a session-change event for an account whose profile row is missing
(store code `PGRST116`) settles, in both handler variants, to the minimal
orphaned-account record: `user` non-null with `name` the local part of the
email, `role = null`, `isLoading = false` — distinguishable from the
still-loading state in which `user` is null and `isLoading` is true. -/
theorem orphaned_account_settles_distinguishable (s : AuthState)
    (su : SupabaseUser) (e msg : String) (he : su.email = some e)
    (hlp : localPart e ≠ "") :
    onSessionChangeV1 s (some su) (FetchOutcome.err "PGRST116" msg) =
      { state := { user := some (minimalUser su), role := none, isLoading := false }
        escaped := none } ∧
    onSessionChangeV2 s (some su) (FetchOutcome.err "PGRST116" msg) =
      { state := { user := some (minimalUser su), role := none, isLoading := false }
        escaped := none } ∧
    (minimalUser su).name = localPart e ∧
    some (minimalUser su) ≠ (none : Option User) := by
  refine ⟨?_, ?_, ?_, by simp⟩
  · simp [onSessionChangeV1, fetchUserProfile_err_eq]
  · simp [onSessionChangeV2, fetchUserProfile_err_eq]
  · simp [minimalUser, minimalName, he, hlp]

theorem orphaned_account_settles_distinguishable_witness :
    onSessionChangeV1 initialAuthState (some sampleAccount)
        (FetchOutcome.err "PGRST116" "no rows") =
      { state :=
          { user := some (minimalUser sampleAccount), role := none, isLoading := false }
        escaped := none } ∧
    onSessionChangeV2 initialAuthState (some sampleAccount)
        (FetchOutcome.err "PGRST116" "no rows") =
      { state :=
          { user := some (minimalUser sampleAccount), role := none, isLoading := false }
        escaped := none } ∧
    (minimalUser sampleAccount).name = localPart "a@x.com" ∧
    some (minimalUser sampleAccount) ≠ (none : Option User) :=
  orphaned_account_settles_distinguishable initialAuthState sampleAccount
    "a@x.com" "no rows" rfl (by decide)

/-- C8: when the credential check is rejected, both `signIn` variants
return the error with `isLoading` already false and every other state
field — in particular `user` — exactly as it was before the call; the
settled pair is produced directly, with no session-change event involved. -/
theorem signin_rejection_settles_immediately (s : AuthState) (e : AuthErr) :
    signInV1 s (some e) = ({ s with isLoading := false }, some e) ∧
    signInV2 s (some e) = ({ s with isLoading := false }, some e) ∧
    (signInV1 s (some e)).1.user = s.user ∧
    (signInV2 s (some e)).1.user = s.user :=
  ⟨rfl, rfl, rfl, rfl⟩

/-- C9: with a non-null user, `selectRole r` on a successful row update
immediately yields `role = r` and `user.role = r` (the optimistic write,
no session-change event involved), and on a failed update leaves both
`role` and `user` exactly as they were. -/
theorem selectRole_optimistic_update (s : AuthState) (u : User) (r : Role)
    (h : s.user = some u) :
    (selectRole s r none).1.role = some r ∧
    (selectRole s r none).1.user = some { u with role := some r } ∧
    (selectRole s r none).2 =
      [Effect.updateRole u.id r, Effect.push (roleRoute r u.id)] ∧
    (∀ e : StoreErr,
      (selectRole s r (some e)).1.role = s.role ∧
      (selectRole s r (some e)).1.user = s.user) := by
  refine ⟨?_, ?_, ?_, ?_⟩ <;> simp [selectRole, h]

theorem selectRole_optimistic_update_witness :
    (selectRole { user := some sampleUser, role := none, isLoading := false }
        Role.organizer none).1.role = some Role.organizer ∧
    (selectRole { user := some sampleUser, role := none, isLoading := false }
        Role.organizer none).1.user =
      some { sampleUser with role := some Role.organizer } ∧
    (selectRole { user := some sampleUser, role := none, isLoading := false }
        Role.organizer none).2 =
      [Effect.updateRole sampleUser.id Role.organizer,
       Effect.push (roleRoute Role.organizer sampleUser.id)] ∧
    (∀ e : StoreErr,
      (selectRole { user := some sampleUser, role := none, isLoading := false }
          Role.organizer (some e)).1.role =
        ({ user := some sampleUser, role := none, isLoading := false } : AuthState).role ∧
      (selectRole { user := some sampleUser, role := none, isLoading := false }
          Role.organizer (some e)).1.user =
        ({ user := some sampleUser, role := none, isLoading := false } : AuthState).user) :=
  selectRole_optimistic_update
    { user := some sampleUser, role := none, isLoading := false }
    sampleUser Role.organizer rfl

/-- C10: on a successful submission the purchase dialog issues exactly the
`onPurchaseSuccess` callback (with a locally built record whose status is
always `confirmed`) and the dialog close — no row-store insert of any kind,
so the `ticket_purchases` table is never written by the dialog. -/
theorem dialog_purchase_writes_no_rows (u : User) (event : EventRow)
    (data : TicketFormData) (freshId now : String) :
    dialogOnSubmit (some u) event data freshId now =
      [DialogEffect.purchaseSuccess event.title data.ticketQuantity
         (mkPurchaseRecord u event data freshId now),
       DialogEffect.closeDialog] ∧
    (mkPurchaseRecord u event data freshId now).status = "confirmed" ∧
    (∀ (t : String) (rec : TicketPurchase),
      DialogEffect.insertRow t rec ∉ dialogOnSubmit (some u) event data freshId now) := by
  refine ⟨rfl, rfl, ?_⟩
  intro t rec hmem
  simp [dialogOnSubmit] at hmem

/-- C3 counterexample: in the second `signUp` variant, a profile-insert
failure after successful account creation returns the typed
`ProfileCreationError` but issues no sign-out: `storeSignOut` is not among
the calls made, so the half-created account stays signed in. -/
theorem signupV2_insert_failure_no_signout_cex :
    (signUpV2 initialAuthState sampleDraft Role.attendee
        (Except.ok (some sampleAccount)) (some sampleInsertErr)).result =
      some { name := "ProfileCreationError"
             message := "duplicate key value violates unique constraint" } ∧
    Effect.storeSignOut ∉
      (signUpV2 initialAuthState sampleDraft Role.attendee
        (Except.ok (some sampleAccount)) (some sampleInsertErr)).effects := by
  decide

/-- C3 amended: in the first `signUp` variant, account creation succeeding
and the profile insert failing yields exactly the insert call followed by a
compensating sign-out, a `ProfileCreationError` carrying the underlying
insert message, and `isLoading` released; a subsequent session-change
observation (the no-session event the sign-out produces) settles with no
active user, in either handler variant.  The second `signUp` variant
returns the same typed error but does not sign out. -/
theorem signupV1_insert_failure_compensating_signout
    (s : AuthState) (d : UserDraft) (r : Role) (su : SupabaseUser)
    (ie : StoreErr) (fetch : FetchOutcome) (h : d.email.getD "" ≠ "") :
    (signUpV1 s d r (Except.ok (some su)) (some ie) fetch).effects =
      [Effect.insertProfile (signUpInsertPayload d r su), Effect.storeSignOut] ∧
    (signUpV1 s d r (Except.ok (some su)) (some ie) fetch).result =
      some { name := "ProfileCreationError", message := ie.message } ∧
    (signUpV1 s d r (Except.ok (some su)) (some ie) fetch).state.isLoading = false ∧
    (∀ f : FetchOutcome,
      (onSessionChangeV1
        (signUpV1 s d r (Except.ok (some su)) (some ie) fetch).state none f).state.user =
          none ∧
      (onSessionChangeV2
        (signUpV1 s d r (Except.ok (some su)) (some ie) fetch).state none f).state.user =
          none) := by
  have hs : signUpV1 s d r (Except.ok (some su)) (some ie) fetch =
      { state := { s with isLoading := false }
        effects := [Effect.insertProfile (signUpInsertPayload d r su), Effect.storeSignOut]
        result := some { name := "ProfileCreationError", message := ie.message }
        escaped := none } := by
    unfold signUpV1
    rw [if_neg h]
  rw [hs]
  exact ⟨rfl, rfl, rfl, fun _f => ⟨rfl, rfl⟩⟩

theorem signupV1_insert_failure_compensating_signout_witness :
    (signUpV1 initialAuthState sampleDraft Role.attendee
        (Except.ok (some sampleAccount)) (some sampleInsertErr)
        (FetchOutcome.err "PGRST116" "no rows")).effects =
      [Effect.insertProfile
         (signUpInsertPayload sampleDraft Role.attendee sampleAccount),
       Effect.storeSignOut] ∧
    (signUpV1 initialAuthState sampleDraft Role.attendee
        (Except.ok (some sampleAccount)) (some sampleInsertErr)
        (FetchOutcome.err "PGRST116" "no rows")).result =
      some { name := "ProfileCreationError", message := sampleInsertErr.message } ∧
    (signUpV1 initialAuthState sampleDraft Role.attendee
        (Except.ok (some sampleAccount)) (some sampleInsertErr)
        (FetchOutcome.err "PGRST116" "no rows")).state.isLoading = false ∧
    (∀ f : FetchOutcome,
      (onSessionChangeV1
        (signUpV1 initialAuthState sampleDraft Role.attendee
          (Except.ok (some sampleAccount)) (some sampleInsertErr)
          (FetchOutcome.err "PGRST116" "no rows")).state none f).state.user = none ∧
      (onSessionChangeV2
        (signUpV1 initialAuthState sampleDraft Role.attendee
          (Except.ok (some sampleAccount)) (some sampleInsertErr)
          (FetchOutcome.err "PGRST116" "no rows")).state none f).state.user = none) :=
  signupV1_insert_failure_compensating_signout initialAuthState sampleDraft
    Role.attendee sampleAccount sampleInsertErr
    (FetchOutcome.err "PGRST116" "no rows") (by decide)

/-- C4 counterexample: a profile fetch failing with a non-no-rows error
(`42501`) settles both handler variants with a non-null `user` (the minimal
orphaned-account record), not `user = null` as claimed. -/
theorem handler_hard_error_user_nonnull_cex :
    (onSessionChangeV1 initialAuthState (some sampleAccount)
        (FetchOutcome.err "42501" "permission denied for table users")).state.user ≠
      none ∧
    (onSessionChangeV2 initialAuthState (some sampleAccount)
        (FetchOutcome.err "42501" "permission denied for table users")).state.user ≠
      none := by
  decide

/-- C4 amended: when an account is present and the profile fetch fails with
any error other than the no-rows code, both handler variants treat it
exactly like the no-rows case: the settled state has `user` equal to the
minimal orphaned-account record (non-null), `role = null`, and `isLoading`
released to false (not left stuck true). -/
theorem handler_hard_error_settles_orphanlike
    (s : AuthState) (su : SupabaseUser) (code msg : String)
    (h : code ≠ "PGRST116") :
    onSessionChangeV1 s (some su) (FetchOutcome.err code msg) =
      { state := { user := some (minimalUser su), role := none, isLoading := false }
        escaped := none } ∧
    onSessionChangeV2 s (some su) (FetchOutcome.err code msg) =
      { state := { user := some (minimalUser su), role := none, isLoading := false }
        escaped := none } := by
  have hf : fetchUserProfile su (FetchOutcome.err code msg) = Except.ok none :=
    if_pos h
  constructor
  · simp [onSessionChangeV1, hf]
  · simp [onSessionChangeV2, hf]

theorem handler_hard_error_settles_orphanlike_witness :
    onSessionChangeV1 initialAuthState (some sampleAccount)
        (FetchOutcome.err "42501" "permission denied for table users") =
      { state :=
          { user := some (minimalUser sampleAccount), role := none, isLoading := false }
        escaped := none } ∧
    onSessionChangeV2 initialAuthState (some sampleAccount)
        (FetchOutcome.err "42501" "permission denied for table users") =
      { state :=
          { user := some (minimalUser sampleAccount), role := none, isLoading := false }
        escaped := none } :=
  handler_hard_error_settles_orphanlike initialAuthState sampleAccount
    "42501" "permission denied for table users" (by decide)

/-- C5 counterexample: in the first handler variant a raising profile fetch
lets the exception escape before `setIsLoading(false)` runs: starting from
the loading state, `isLoading` is still true after the handler. -/
theorem handlerV1_raise_keeps_loading_cex :
    (onSessionChangeV1 initialAuthState (some sampleAccount)
        (FetchOutcome.raised "network failure")).state.isLoading = true ∧
    (onSessionChangeV1 initialAuthState (some sampleAccount)
        (FetchOutcome.raised "network failure")).escaped = some "network failure" :=
  ⟨rfl, rfl⟩

/-- C5 amended: the second handler variant (try/catch/finally) releases
`isLoading` on every path, including a raising fetch, and lets nothing
escape; the first variant releases `isLoading` on every run from which no
exception escapes, but a raising fetch escapes it with `isLoading`
untouched. -/
theorem handler_releases_isLoading :
    (∀ (s : AuthState) (sess : Option SupabaseUser) (f : FetchOutcome),
      (onSessionChangeV2 s sess f).state.isLoading = false ∧
      (onSessionChangeV2 s sess f).escaped = none) ∧
    (∀ (s : AuthState) (sess : Option SupabaseUser) (f : FetchOutcome),
      (onSessionChangeV1 s sess f).escaped = none →
      (onSessionChangeV1 s sess f).state.isLoading = false) := by
  constructor
  · intro s sess f
    rcases sess with _ | su
    · exact ⟨rfl, rfl⟩
    · rcases f with p | ⟨c, m⟩ | m
      · exact ⟨rfl, rfl⟩
      · simp [onSessionChangeV2, fetchUserProfile_err_eq]
      · exact ⟨rfl, rfl⟩
  · intro s sess f h
    rcases sess with _ | su
    · rfl
    · rcases f with p | ⟨c, m⟩ | m
      · rfl
      · simp [onSessionChangeV1, fetchUserProfile_err_eq]
      · simp [onSessionChangeV1, fetchUserProfile] at h

theorem handler_releases_isLoading_witness :
    ((onSessionChangeV2 initialAuthState (some sampleAccount)
        (FetchOutcome.raised "network failure")).state.isLoading = false ∧
     (onSessionChangeV2 initialAuthState (some sampleAccount)
        (FetchOutcome.raised "network failure")).escaped = none) ∧
    (onSessionChangeV1 initialAuthState none
        (FetchOutcome.rows sampleProfile)).state.isLoading = false :=
  ⟨handler_releases_isLoading.1 initialAuthState (some sampleAccount)
      (FetchOutcome.raised "network failure"),
   handler_releases_isLoading.2 initialAuthState none
      (FetchOutcome.rows sampleProfile) rfl⟩

/-- C6 counterexample: in the first `signUp` variant, full success (account
created, profile inserted, refetch returning the row) hand-populates both
`user` and `role`, changing them from their prior values. -/
theorem signupV1_full_success_sets_user_cex :
    (signUpV1 initialAuthState sampleDraft Role.attendee
        (Except.ok (some sampleAccount)) none
        (FetchOutcome.rows sampleProfile)).state.user ≠ initialAuthState.user ∧
    (signUpV1 initialAuthState sampleDraft Role.attendee
        (Except.ok (some sampleAccount)) none
        (FetchOutcome.rows sampleProfile)).state.role ≠ initialAuthState.role := by
  decide

/-- C6 amended: on full sign-up success the second `signUp` variant leaves
`user` and `role` untouched (and `isLoading` true), deferring population to
the pending session-change event, mirroring the second `signIn` variant;
the first variant instead hand-populates them from a post-insert refetch. -/
theorem signupV2_full_success_defers_population
    (s : AuthState) (d : UserDraft) (r : Role) (su : SupabaseUser)
    (h : d.email.getD "" ≠ "") :
    (signUpV2 s d r (Except.ok (some su)) none).state.user = s.user ∧
    (signUpV2 s d r (Except.ok (some su)) none).state.role = s.role ∧
    (signUpV2 s d r (Except.ok (some su)) none).result = none ∧
    (signUpV2 s d r (Except.ok (some su)) none).state.isLoading = true := by
  have hs : signUpV2 s d r (Except.ok (some su)) none =
      { state := { s with isLoading := true }
        effects := [Effect.insertProfile (signUpInsertPayload d r su)]
        result := none
        escaped := none } := by
    unfold signUpV2
    rw [if_neg h]
  rw [hs]
  exact ⟨rfl, rfl, rfl, rfl⟩

theorem signupV2_full_success_defers_population_witness :
    (signUpV2 initialAuthState sampleDraft Role.attendee
        (Except.ok (some sampleAccount)) none).state.user = initialAuthState.user ∧
    (signUpV2 initialAuthState sampleDraft Role.attendee
        (Except.ok (some sampleAccount)) none).state.role = initialAuthState.role ∧
    (signUpV2 initialAuthState sampleDraft Role.attendee
        (Except.ok (some sampleAccount)) none).result = none ∧
    (signUpV2 initialAuthState sampleDraft Role.attendee
        (Except.ok (some sampleAccount)) none).state.isLoading = true :=
  signupV2_full_success_defers_population initialAuthState sampleDraft
    Role.attendee sampleAccount (by decide)
